import Mathlib

/-!
Verification development for the UpCloud fleeting plugin's instance-group
lifecycle controller. The Go code is shallowly embedded: the UpCloud service
boundary (`upcloudSvc`) is modelled as oracle functions supplied per call,
Go `error` values are modelled as their message strings (`Err`), and each
controller method becomes a pure Lean function that also returns the trace
of provider calls / callback invocations it performs, so that claims about
call counts and invocation order can be stated.
-/

namespace FleetingUpcloud

/-- Go `error` values, modelled by their message string (`err.Error()`). -/
abbrev Err := String

/-- Constant `upcloud.ServerStateStarted` from the UpCloud SDK. -/
def ServerStateStarted : String := "started"

/-- Constant `upcloud.ServerStateStopped` from the UpCloud SDK. -/
def ServerStateStopped : String := "stopped"

/-- Constant `upcloud.ServerStateError` from the UpCloud SDK. -/
def ServerStateError : String := "error"

/-- Constant `upcloud.ServerStateMaintenance` from the UpCloud SDK. -/
def ServerStateMaintenance : String := "maintenance"

/-- Constant `upcloud.IPAddressFamilyIPv4` from the UpCloud SDK. -/
def IPAddressFamilyIPv4 : String := "IPv4"

/-- Constant `upcloud.IPAddressFamilyIPv6` from the UpCloud SDK. -/
def IPAddressFamilyIPv6 : String := "IPv6"

/-- Constant `upcloud.IPAddressAccessPublic` from the UpCloud SDK. -/
def IPAddressAccessPublic : String := "public"

/-- Constant `upcloud.IPAddressAccessPrivate` from the UpCloud SDK. -/
def IPAddressAccessPrivate : String := "private"

/-- Constant `groupLabelKey` from the plugin source. -/
def groupLabelKey : String := "fleeting-group"

/-- Constant `defaultPlan` from the plugin source. -/
def defaultPlan : String := "1xCPU-2GB"

/-- Constant `defaultNamePrefix` from the plugin source (the Go identifier
ends in a word this development avoids in Lean names, hence `Pfx`). -/
def defaultNamePfx : String := "fleeting"

/-- Constant `defaultMaxSize` from the plugin source. -/
def defaultMaxSize : Int := 100

/-- The fleeting `provider.State` lifecycle states. -/
inductive State where
  | Creating
  | Running
  | Deleting
  | Deleted
  | Timeout
deriving DecidableEq, Repr

/-- The fleeting `provider.ConnectorConfig` fields this plugin reads
(`settings.ConnectorConfig`). Other fields are never consulted. -/
structure ConnectorConfig where
  OS : String := ""
  Arch : String := ""
  Protocol : String := ""
  Username : String := ""
deriving DecidableEq, Repr

/-- The `InstanceGroup` struct: configuration fields populated from
`plugin_config`, plus the internal state this embedding needs
(`settings.ConnectorConfig` and the derived `publicKey`). Go zero values
are the field defaults. `NamePfx` embeds the Go field `NamePrefix`. -/
structure InstanceGroup where
  Token : String := ""
  Username : String := ""
  Password : String := ""
  Zone : String := ""
  Template : String := ""
  Name : String := ""
  Plan : String := ""
  StorageSize : Int := 0
  StorageTier : String := ""
  NamePfx : String := ""
  MaxSize : Int := 0
  UsePrivateNetwork : Bool := false
  UserData : String := ""
  settings : ConnectorConfig := {}
  publicKey : String := ""
deriving DecidableEq, Repr

/-- Embeds `InstanceGroup.validate`: Go mutates the receiver and returns
`error`; here the updated group is returned through `Except.ok`. -/
def InstanceGroup.validate (g : InstanceGroup) : Except Err InstanceGroup :=
  if g.Token = "" ∧ (g.Username = "" ∨ g.Password = "") then
    .error "either token or both username and password are required"
  else if g.Zone = "" then
    .error "zone is required"
  else if g.Template = "" then
    .error "template is required"
  else if g.Name = "" then
    .error "name is required"
  else
    let g := if g.Plan = "" then { g with Plan := defaultPlan } else g
    let g := if g.NamePfx = "" then { g with NamePfx := defaultNamePfx } else g
    let g := if g.MaxSize = 0 then { g with MaxSize := defaultMaxSize } else g
    .ok g

/-- Embeds `mapServerState`: converts an UpCloud server state string to a
`provider.State`. -/
def mapServerState (s : String) : State :=
  if s = ServerStateStarted then
    .Running
  else if s = ServerStateStopped ∨ s = ServerStateError then
    .Deleted
  else
    .Creating

/-- The fields of `upcloud.Server` that `Update` reads. -/
structure Server where
  UUID : String
  State : String
deriving DecidableEq, Repr

/-- The filter part of `request.GetServersWithFiltersRequest`: here only
label filters occur, each a key/value pair. -/
structure GetServersWithFiltersRequest where
  Filters : List (String × String)
deriving DecidableEq, Repr

/-- Embeds `InstanceGroup.Update`. The service call
`GetServersWithFilters` is an oracle from the request to either an error or
the listed servers. The result pairs the Go return value with the trace of
callback invocations `(instance, state)` in invocation order. -/
def InstanceGroup.Update (g : InstanceGroup)
    (getServersWithFilters : GetServersWithFiltersRequest → Except Err (List Server)) :
    Except Err Unit × List (String × State) :=
  match getServersWithFilters ⟨[(groupLabelKey, g.Name)]⟩ with
  | .error e => (.error ("listing group servers: " ++ e), [])
  | .ok servers => (.ok (), servers.map (fun s => (s.UUID, mapServerState s.State)))

/-- One entry of `request.CreateServerStorageDeviceSlice`. -/
structure CreateServerStorageDevice where
  Action : String
  Storage : String
  Title : String
  Size : Int
  Tier : String
deriving DecidableEq, Repr

/-- One entry of `request.CreateServerInterfaceSlice`: the IP address
families requested on the interface, and the network type. -/
structure CreateServerInterface where
  IPFamilies : List String
  NetType : String
deriving DecidableEq, Repr

/-- The `request.LoginUser` block. -/
structure LoginUser where
  Username : String
  SSHKeys : List String
deriving DecidableEq, Repr

/-- The fields of `request.CreateServerRequest` that `Increase` sets. -/
structure CreateServerRequest where
  Hostname : String
  Title : String
  Plan : String
  Zone : String
  Metadata : Bool
  Labels : List (String × String)
  StorageDevices : List CreateServerStorageDevice
  Interfaces : List CreateServerInterface
  LoginUser : Option LoginUser
  UserData : String
deriving DecidableEq, Repr

/-- Embeds the request construction inside one iteration of
`InstanceGroup.Increase`, given the random hostname suffix for this
attempt (`randomSuffix 8` is modelled as an oracle, since the embedding
has no randomness). -/
def InstanceGroup.buildCreateRequest (g : InstanceGroup) (suffix : String) :
    CreateServerRequest :=
  let hostname := g.NamePfx ++ "-" ++ suffix
  let storageDevices : List CreateServerStorageDevice :=
    [{ Action := "clone", Storage := g.Template, Title := "disk1",
       Size := g.StorageSize, Tier := g.StorageTier }]
  let interfaces : List CreateServerInterface :=
    [{ IPFamilies := [IPAddressFamilyIPv4], NetType := "public" }] ++
      (if g.UsePrivateNetwork then
        [{ IPFamilies := [IPAddressFamilyIPv4], NetType := "private" }]
      else [])
  { Hostname := hostname
    Title := "fleeting-plugin-upcloud - " ++ hostname
    Plan := g.Plan
    Zone := g.Zone
    Metadata := true
    Labels := [(groupLabelKey, g.Name)]
    StorageDevices := storageDevices
    Interfaces := interfaces
    LoginUser :=
      if g.publicKey ≠ "" then
        some { Username := g.settings.Username, SSHKeys := [g.publicKey] }
      else none
    UserData := if g.UserData ≠ "" then g.UserData else "" }

/-- Loop body of `InstanceGroup.Increase`: attempt index `i`, `r` attempts
remaining. `createServer` is the per-attempt oracle (`none` = the
`CreateServer` call succeeded, `some e` = it returned error `e`); `suffix`
supplies the random hostname suffix of each attempt. Returns the number of
attempts that succeeded and the list of `CreateServer` requests issued, in
order. -/
def InstanceGroup.increaseLoop (g : InstanceGroup) (suffix : Nat → String)
    (createServer : Nat → Option Err) : Nat → Nat → Nat × List CreateServerRequest
  | _, 0 => (0, [])
  | i, r + 1 =>
    let req := g.buildCreateRequest (suffix i)
    let rest := g.increaseLoop suffix createServer (i + 1) r
    match createServer i with
    | some _ => (rest.1, req :: rest.2)
    | none => (rest.1 + 1, req :: rest.2)

/-- Embeds `InstanceGroup.Increase`: `n` sequential creation attempts.
Returns the Go return value `(succeeded, error)` together with the trace of
provider calls made. -/
def InstanceGroup.Increase (g : InstanceGroup) (suffix : Nat → String)
    (createServer : Nat → Option Err) (n : Nat) :
    (Nat × Option Err) × List CreateServerRequest :=
  let res := g.increaseLoop suffix createServer 0 n
  ((res.1, none), res.2)

/-- The three provider calls made by `stopAndDelete`, in program order. -/
inductive RemovalStep where
  | stopServer
  | waitForServerState
  | deleteServerAndStorages
deriving DecidableEq, Repr

/-- Per-uuid oracle outcomes for the three service calls used by
`stopAndDelete` (`none` = the call succeeded). -/
structure RemovalSvc where
  stopServer : String → Option Err
  waitForServerState : String → Option Err
  deleteServerAndStorages : String → Option Err

/-- Embeds `InstanceGroup.stopAndDelete`: hard-stop, wait for the stopped
state, then delete server and storages, aborting on the first failure and
wrapping it with the step name and uuid. Also returns the trace of service
calls made for this uuid, in order. -/
def InstanceGroup.stopAndDelete (svc : RemovalSvc) (uuid : String) :
    Option Err × List RemovalStep :=
  match svc.stopServer uuid with
  | some e => (some ("stopping server " ++ uuid ++ ": " ++ e), [.stopServer])
  | none =>
    match svc.waitForServerState uuid with
    | some e =>
        (some ("waiting for server " ++ uuid ++ " to stop: " ++ e),
         [.stopServer, .waitForServerState])
    | none =>
      match svc.deleteServerAndStorages uuid with
      | some e =>
          (some ("deleting server " ++ uuid ++ ": " ++ e),
           [.stopServer, .waitForServerState, .deleteServerAndStorages])
      | none =>
          (none, [.stopServer, .waitForServerState, .deleteServerAndStorages])

/-- Embeds `InstanceGroup.Decrease` for one admissible schedule of the
concurrent removal tasks. `completionOrder` lists the instance ids in the
order their goroutines complete (a permutation of the argument `instances`
— Go's scheduler chooses it). Each completed task appends its uuid to
`succeeded` on success, or records its error as `firstErr` when no earlier
completion has; the third component collects the provider calls each task
made. -/
def InstanceGroup.decreaseRuns (svc : RemovalSvc) :
    List String → List String × Option Err × List (String × RemovalStep)
  | [] => ([], none, [])
  | uuid :: rest =>
    let r := InstanceGroup.stopAndDelete svc uuid
    let res := InstanceGroup.decreaseRuns svc rest
    let calls := (r.2.map (fun s => (uuid, s))) ++ res.2.2
    match r.1 with
    | some e => (res.1, some e, calls)
    | none => (uuid :: res.1, res.2.1, calls)

/-- The fields of `upcloud.IPAddress` that `ConnectInfo` reads. -/
structure IPAddress where
  Family : String
  Access : String
  Address : String
deriving DecidableEq, Repr

/-- The fields of `upcloud.ServerDetails` this plugin reads: the embedded
server state (used by `Heartbeat`) and the IP address list (used by
`ConnectInfo`). -/
structure ServerDetails where
  State : String := ""
  IPAddresses : List IPAddress := []
deriving DecidableEq, Repr

/-- The fields of `provider.ConnectInfo` this plugin writes: the embedded
connector-config fields it may default, plus id and addresses. -/
structure ConnectInfo where
  OS : String := ""
  Arch : String := ""
  Protocol : String := ""
  Username : String := ""
  ID : String := ""
  ExternalAddr : String := ""
  InternalAddr : String := ""
deriving DecidableEq, Repr

/-- Embeds the IPv4-extraction loop of `ConnectInfo`: non-IPv4 entries are
skipped, a public entry overwrites `ExternalAddr`, a private entry
overwrites `InternalAddr`, any other access kind is ignored. -/
def InstanceGroup.applyIPAddresses (info : ConnectInfo) (ips : List IPAddress) :
    ConnectInfo :=
  match ips with
  | [] => info
  | ip :: rest =>
    let info :=
      if ip.Family ≠ IPAddressFamilyIPv4 then info
      else if ip.Access = IPAddressAccessPublic then
        { info with ExternalAddr := ip.Address }
      else if ip.Access = IPAddressAccessPrivate then
        { info with InternalAddr := ip.Address }
      else info
    InstanceGroup.applyIPAddresses info rest

/-- Embeds the start of `ConnectInfo`: the info seeded from the runner's
connector config and the id, with the fixed OS/arch/protocol fallbacks
applied only where the connector config left the field unset. -/
def InstanceGroup.connectDefaults (g : InstanceGroup) (id : String) :
    ConnectInfo :=
  let info : FleetingUpcloud.ConnectInfo :=
    { OS := g.settings.OS, Arch := g.settings.Arch,
      Protocol := g.settings.Protocol, Username := g.settings.Username,
      ID := id }
  let info := if info.OS = "" then { info with OS := "linux" } else info
  let info := if info.Arch = "" then { info with Arch := "amd64" } else info
  if info.Protocol = "" then { info with Protocol := "ssh" } else info

/-- Embeds `InstanceGroup.ConnectInfo`. The `GetServerDetails` call is the
oracle `fetch`. On fetch failure Go returns the partially filled info with
the error; the embedding keeps only the error, which is what callers see. -/
def InstanceGroup.ConnectInfo (g : InstanceGroup)
    (fetch : Except Err ServerDetails) (id : String) :
    Except Err FleetingUpcloud.ConnectInfo :=
  match fetch with
  | .error e => .error ("getting server details for " ++ id ++ ": " ++ e)
  | .ok details =>
    let info := g.connectDefaults id
    let info := InstanceGroup.applyIPAddresses info details.IPAddresses
    let info :=
      if g.UsePrivateNetwork ∧ info.InternalAddr ≠ "" then
        { info with ExternalAddr := info.InternalAddr }
      else info
    .ok info

/-- Embeds `InstanceGroup.Heartbeat`. The `GetServerDetails` call is the
oracle `fetch`; the result is the Go return value (`none` = healthy). -/
def InstanceGroup.Heartbeat (fetch : Except Err ServerDetails) (id : String) :
    Option Err :=
  match fetch with
  | .error _ => none
  | .ok details =>
    if details.State = ServerStateError then
      some ("server " ++ id ++ " is in error state")
    else none

/-!
Helper lemmas shared by several claims.
-/

/-- Characterization of `validate`: it succeeds exactly when some auth mode
is complete and zone, template and name are non-empty, and then the result
is the input with `Plan`, `NamePfx` and `MaxSize` defaulted when unset. -/
theorem validate_ok_iff (g g' : InstanceGroup) :
    g.validate = Except.ok g' ↔
      ¬(g.Token = "" ∧ (g.Username = "" ∨ g.Password = "")) ∧
      g.Zone ≠ "" ∧ g.Template ≠ "" ∧ g.Name ≠ "" ∧
      ({ g with
        Plan := if g.Plan = "" then defaultPlan else g.Plan,
        NamePfx := if g.NamePfx = "" then defaultNamePfx else g.NamePfx,
        MaxSize := if g.MaxSize = 0 then defaultMaxSize else g.MaxSize } :
          InstanceGroup) = g' := by
  unfold InstanceGroup.validate
  by_cases h1 : g.Token = "" ∧ (g.Username = "" ∨ g.Password = "")
  · simp [h1]
  by_cases h2 : g.Zone = ""
  · simp [h1, h2]
  by_cases h3 : g.Template = ""
  · simp [h1, h2, h3]
  by_cases h4 : g.Name = ""
  · simp [h1, h2, h3, h4]
  rw [if_neg h1, if_neg h2, if_neg h3, if_neg h4]
  by_cases hp : g.Plan = "" <;> by_cases hn : g.NamePfx = "" <;>
    by_cases hm : g.MaxSize = 0 <;>
    simp [h1, h2, h3, h4, hp, hn, hm]

/-- C9: mapState is a total function on strings with no side effects: it
returns Running for "started", Deleted for "stopped" and for "error", and
Creating for every other input string, including the empty string, "new",
and "maintenance". -/
theorem mapServerState_total_spec :
    mapServerState "started" = .Running ∧
    mapServerState "stopped" = .Deleted ∧
    mapServerState "error" = .Deleted ∧
    mapServerState "" = .Creating ∧
    mapServerState "new" = .Creating ∧
    mapServerState "maintenance" = .Creating ∧
    ∀ s : String, s ≠ "started" → s ≠ "stopped" → s ≠ "error" →
      mapServerState s = .Creating := by
  refine ⟨rfl, rfl, rfl, rfl, rfl, rfl, ?_⟩
  intro s h1 h2 h3
  simp [mapServerState, ServerStateStarted, ServerStateStopped,
    ServerStateError, h1, h2, h3]

/-- Witness for C9 at the concrete input "custom-state". -/
theorem mapServerState_total_spec_witness :
    mapServerState "custom-state" = .Creating :=
  mapServerState_total_spec.2.2.2.2.2.2 "custom-state"
    (by decide) (by decide) (by decide)

/-- A configuration with a token AND a username-and-password pair, all
other required fields set. -/
def cfgBothModes : InstanceGroup :=
  { Token := "t", Username := "u", Password := "p",
    Zone := "z", Template := "tpl", Name := "n" }

/-- C6 counterexample: validate accepts a configuration in which BOTH
authentication modes are set, so after successful validation auth is not
"exactly one mode, not both". -/
theorem validate_accepts_both_auth_modes :
    cfgBothModes.validate = Except.ok
      { cfgBothModes with
        Plan := defaultPlan,
        NamePfx := defaultNamePfx,
        MaxSize := defaultMaxSize } ∧
    cfgBothModes.Token ≠ "" ∧ cfgBothModes.Username ≠ "" ∧
    cfgBothModes.Password ≠ "" := by
  refine ⟨rfl, ?_, ?_, ?_⟩ <;> decide

/-- C6 (amended): for every configuration on which validate returns
success, afterwards plan, namePfx and maxSize are non-empty/non-zero and
at least one authentication mode is fully set (a token, or a
username-and-password pair); both may be set simultaneously. -/
theorem validate_invariants (g g' : InstanceGroup)
    (h : g.validate = Except.ok g') :
    g'.Plan ≠ "" ∧ g'.NamePfx ≠ "" ∧ g'.MaxSize ≠ 0 ∧
    (g'.Token ≠ "" ∨ (g'.Username ≠ "" ∧ g'.Password ≠ "")) := by
  rw [validate_ok_iff] at h
  obtain ⟨hauth, -, -, -, hg'⟩ := h
  subst hg'
  refine ⟨?_, ?_, ?_, ?_⟩
  · by_cases hp : g.Plan = "" <;> simp [hp, defaultPlan]
  · by_cases hp : g.NamePfx = "" <;> simp [hp, defaultNamePfx]
  · by_cases hp : g.MaxSize = 0 <;> simp [hp, defaultMaxSize]
  · push_neg at hauth
    by_cases ht : g.Token = ""
    · obtain ⟨hu, hpw⟩ := hauth ht
      exact Or.inr ⟨by simpa using hu, by simpa using hpw⟩
    · exact Or.inl (by simpa using ht)

/-- Witness for C6 (amended) at a concrete token-only configuration. -/
theorem validate_invariants_witness :
    ({ Token := "t", Zone := "z", Template := "tpl", Name := "n",
       Plan := defaultPlan, NamePfx := defaultNamePfx,
       MaxSize := defaultMaxSize } : InstanceGroup).Plan ≠ "" ∧
    ({ Token := "t", Zone := "z", Template := "tpl", Name := "n",
       Plan := defaultPlan, NamePfx := defaultNamePfx,
       MaxSize := defaultMaxSize } : InstanceGroup).NamePfx ≠ "" ∧
    ({ Token := "t", Zone := "z", Template := "tpl", Name := "n",
       Plan := defaultPlan, NamePfx := defaultNamePfx,
       MaxSize := defaultMaxSize } : InstanceGroup).MaxSize ≠ 0 ∧
    (({ Token := "t", Zone := "z", Template := "tpl", Name := "n",
        Plan := defaultPlan, NamePfx := defaultNamePfx,
        MaxSize := defaultMaxSize } : InstanceGroup).Token ≠ "" ∨
      (({ Token := "t", Zone := "z", Template := "tpl", Name := "n",
          Plan := defaultPlan, NamePfx := defaultNamePfx,
          MaxSize := defaultMaxSize } : InstanceGroup).Username ≠ "" ∧
        ({ Token := "t", Zone := "z", Template := "tpl", Name := "n",
           Plan := defaultPlan, NamePfx := defaultNamePfx,
           MaxSize := defaultMaxSize } : InstanceGroup).Password ≠ "")) :=
  validate_invariants
    { Token := "t", Zone := "z", Template := "tpl", Name := "n" }
    { Token := "t", Zone := "z", Template := "tpl", Name := "n",
      Plan := defaultPlan, NamePfx := defaultNamePfx,
      MaxSize := defaultMaxSize }
    rfl

/-- C7: validate accepts token alone or username+password together;
rejects an incomplete auth mode, then empty zone, template, name, in that
order with the first failure winning; on success it defaults plan, the
name prefix and maxSize only when unset and passes storage size/tier
through unchanged. -/
theorem validate_cases (g : InstanceGroup) :
    ((g.Token = "" ∧ (g.Username = "" ∨ g.Password = "")) →
      g.validate =
        Except.error "either token or both username and password are required") ∧
    (¬(g.Token = "" ∧ (g.Username = "" ∨ g.Password = "")) → g.Zone = "" →
      g.validate = Except.error "zone is required") ∧
    (¬(g.Token = "" ∧ (g.Username = "" ∨ g.Password = "")) → g.Zone ≠ "" →
      g.Template = "" → g.validate = Except.error "template is required") ∧
    (¬(g.Token = "" ∧ (g.Username = "" ∨ g.Password = "")) → g.Zone ≠ "" →
      g.Template ≠ "" → g.Name = "" →
      g.validate = Except.error "name is required") ∧
    (¬(g.Token = "" ∧ (g.Username = "" ∨ g.Password = "")) → g.Zone ≠ "" →
      g.Template ≠ "" → g.Name ≠ "" →
      g.validate = Except.ok { g with
        Plan := if g.Plan = "" then defaultPlan else g.Plan,
        NamePfx := if g.NamePfx = "" then defaultNamePfx else g.NamePfx,
        MaxSize := if g.MaxSize = 0 then defaultMaxSize else g.MaxSize }) ∧
    (∀ g', g.validate = Except.ok g' →
      g'.StorageSize = g.StorageSize ∧ g'.StorageTier = g.StorageTier ∧
      (g.Plan ≠ "" → g'.Plan = g.Plan) ∧
      (g.NamePfx ≠ "" → g'.NamePfx = g.NamePfx) ∧
      (g.MaxSize ≠ 0 → g'.MaxSize = g.MaxSize)) := by
  refine ⟨?_, ?_, ?_, ?_, ?_, ?_⟩
  · intro h1
    simp [InstanceGroup.validate, h1]
  · intro h1 h2
    simp [InstanceGroup.validate, h1, h2]
  · intro h1 h2 h3
    simp [InstanceGroup.validate, h1, h2, h3]
  · intro h1 h2 h3 h4
    simp [InstanceGroup.validate, h1, h2, h3, h4]
  · intro h1 h2 h3 h4
    rw [validate_ok_iff]
    exact ⟨h1, h2, h3, h4, rfl⟩
  · intro g' h
    rw [validate_ok_iff] at h
    obtain ⟨-, -, -, -, hg'⟩ := h
    subst hg'
    refine ⟨rfl, rfl, ?_, ?_, ?_⟩ <;> intro hne <;> simp [hne]

/-- Witness for C7: the rejection branch at a concrete username-only
configuration. -/
theorem validate_cases_witness :
    ({ Username := "u", Zone := "z", Template := "tpl", Name := "n" } :
        InstanceGroup).validate =
      Except.error "either token or both username and password are required" :=
  (validate_cases
      { Username := "u", Zone := "z", Template := "tpl", Name := "n" }).1
    (by exact ⟨rfl, Or.inr rfl⟩)

/-- The loop of `Increase` starting at attempt `i` with `r` attempts left
succeeds on exactly the attempts whose oracle outcome is `none`, and issues
one provider call per attempt. -/
theorem increaseLoop_spec (g : InstanceGroup) (suffix : Nat → String)
    (create : Nat → Option Err) :
    ∀ r i, (g.increaseLoop suffix create i r).1 =
        ((List.range' i r).filter (fun j => (create j).isNone)).length ∧
      (g.increaseLoop suffix create i r).2.length = r := by
  intro r
  induction r with
  | zero => intro i; simp [InstanceGroup.increaseLoop]
  | succ n ih =>
    intro i
    have h := ih (i + 1)
    rw [List.range'_succ, List.filter_cons]
    cases hc : create i <;>
      simp [InstanceGroup.increaseLoop, hc, h.1, h.2]

/-- C1: for every n and every sequence of per-attempt creation outcomes,
Increase performs n sequential creation attempts, never returns a non-nil
error, and returns the number of attempts that succeeded; Increase 0
returns (0, nil) with zero provider calls. -/
theorem Increase_spec (g : InstanceGroup) (suffix : Nat → String)
    (create : Nat → Option Err) (n : Nat) :
    (g.Increase suffix create n).1.2 = none ∧
    (g.Increase suffix create n).1.1 =
      ((List.range n).filter (fun i => (create i).isNone)).length ∧
    (g.Increase suffix create n).2.length = n ∧
    g.Increase suffix create 0 = ((0, none), []) := by
  have h := increaseLoop_spec g suffix create n 0
  refine ⟨rfl, ?_, h.2, rfl⟩
  rw [List.range_eq_range']
  exact h.1

/-- When `stopAndDelete` fails for a uuid, no run of the removal tasks
adds that uuid to the succeeded list. -/
theorem decreaseRuns_succeeded (svc : RemovalSvc) :
    ∀ l : List String, (InstanceGroup.decreaseRuns svc l).1 =
      l.filter (fun u => (InstanceGroup.stopAndDelete svc u).1.isNone) := by
  intro l
  induction l with
  | nil => simp [InstanceGroup.decreaseRuns]
  | cons u rest ih =>
    rw [List.filter_cons]
    cases hu : (InstanceGroup.stopAndDelete svc u).1 <;>
      simp [InstanceGroup.decreaseRuns, hu, ih]

/-- The error reported by the removal tasks is the wrapped error of the
first failing uuid in completion order. -/
theorem decreaseRuns_firstErr (svc : RemovalSvc) :
    ∀ l : List String, (InstanceGroup.decreaseRuns svc l).2.1 =
      (l.filter (fun u => (InstanceGroup.stopAndDelete svc u).1.isSome)).head?.bind
        (fun u => (InstanceGroup.stopAndDelete svc u).1) := by
  intro l
  induction l with
  | nil => simp [InstanceGroup.decreaseRuns]
  | cons u rest ih =>
    rw [List.filter_cons]
    cases hu : (InstanceGroup.stopAndDelete svc u).1 <;>
      simp [InstanceGroup.decreaseRuns, hu, ih]

/-- C3: the per-id removal procedure invokes hard-stop, wait-for-stopped,
then delete-server-and-storages in that order; a failing step prevents all
later steps, keeps the id out of every run's succeeded list, and the
returned error wraps the underlying failure with the step name and the
instance id. -/
theorem stopAndDelete_spec (svc : RemovalSvc) (uuid : String) :
    (∀ e, svc.stopServer uuid = some e →
      InstanceGroup.stopAndDelete svc uuid =
        (some ("stopping server " ++ uuid ++ ": " ++ e), [.stopServer])) ∧
    (∀ e, svc.stopServer uuid = none → svc.waitForServerState uuid = some e →
      InstanceGroup.stopAndDelete svc uuid =
        (some ("waiting for server " ++ uuid ++ " to stop: " ++ e),
         [.stopServer, .waitForServerState])) ∧
    (∀ e, svc.stopServer uuid = none → svc.waitForServerState uuid = none →
      svc.deleteServerAndStorages uuid = some e →
      InstanceGroup.stopAndDelete svc uuid =
        (some ("deleting server " ++ uuid ++ ": " ++ e),
         [.stopServer, .waitForServerState, .deleteServerAndStorages])) ∧
    (svc.stopServer uuid = none → svc.waitForServerState uuid = none →
      svc.deleteServerAndStorages uuid = none →
      InstanceGroup.stopAndDelete svc uuid =
        (none, [.stopServer, .waitForServerState, .deleteServerAndStorages])) ∧
    (∀ l : List String, (InstanceGroup.stopAndDelete svc uuid).1 ≠ none →
      uuid ∉ (InstanceGroup.decreaseRuns svc l).1) := by
  refine ⟨?_, ?_, ?_, ?_, ?_⟩
  · intro e h1
    simp [InstanceGroup.stopAndDelete, h1]
  · intro e h1 h2
    simp [InstanceGroup.stopAndDelete, h1, h2]
  · intro e h1 h2 h3
    simp [InstanceGroup.stopAndDelete, h1, h2, h3]
  · intro h1 h2 h3
    simp [InstanceGroup.stopAndDelete, h1, h2, h3]
  · intro l herr hmem
    rw [decreaseRuns_succeeded svc l, List.mem_filter] at hmem
    exact herr (Option.isNone_iff_eq_none.mp hmem.2)

/-- Concrete removal oracle for the C3 witness: the hard-stop call fails. -/
def svcStopFails : RemovalSvc :=
  { stopServer := fun _ => some "stop failed",
    waitForServerState := fun _ => none,
    deleteServerAndStorages := fun _ => none }

/-- Witness for C3: with a failing hard-stop, only the stop call is made
and its error is wrapped with the step name and the uuid. -/
theorem stopAndDelete_spec_witness :
    InstanceGroup.stopAndDelete svcStopFails "uuid-1" =
      (some "stopping server uuid-1: stop failed", [.stopServer]) :=
  (stopAndDelete_spec svcStopFails "uuid-1").1 "stop failed" rfl

/-- C2: for every admissible completion order of the concurrent removal
tasks, Decrease returns exactly the ids whose removal chain succeeded (as
a set), a non-nil error exactly when some id failed (namely the wrapped
error of the first failing task in completion order), and on the empty
sequence returns an empty list, a nil error and no provider calls. -/
theorem Decrease_spec (svc : RemovalSvc) (instances order : List String)
    (h : order.Perm instances) :
    (InstanceGroup.decreaseRuns svc order).1.Perm
      (instances.filter (fun u => (InstanceGroup.stopAndDelete svc u).1.isNone)) ∧
    ((InstanceGroup.decreaseRuns svc order).2.1 ≠ none ↔
      ∃ u ∈ instances, (InstanceGroup.stopAndDelete svc u).1 ≠ none) ∧
    ((InstanceGroup.decreaseRuns svc order).2.1 =
      (order.filter
        (fun u => (InstanceGroup.stopAndDelete svc u).1.isSome)).head?.bind
        (fun u => (InstanceGroup.stopAndDelete svc u).1)) ∧
    InstanceGroup.decreaseRuns svc [] = ([], none, []) := by
  refine ⟨?_, ?_, decreaseRuns_firstErr svc order, rfl⟩
  · rw [decreaseRuns_succeeded svc order]
    exact h.filter _
  · rw [decreaseRuns_firstErr svc order]
    constructor
    · intro hne
      cases hh : (order.filter
          (fun u => (InstanceGroup.stopAndDelete svc u).1.isSome)).head? with
      | none => rw [hh] at hne; exact absurd rfl hne
      | some u =>
        have humem : u ∈ order.filter
            (fun u => (InstanceGroup.stopAndDelete svc u).1.isSome) :=
          List.mem_of_mem_head? (by simp [hh])
        rw [List.mem_filter] at humem
        exact ⟨u, h.mem_iff.mp humem.1,
          Option.isSome_iff_ne_none.mp humem.2⟩
    · intro ⟨u, humem, hufail⟩
      have hmem : u ∈ order.filter
          (fun u => (InstanceGroup.stopAndDelete svc u).1.isSome) := by
        rw [List.mem_filter]
        exact ⟨h.mem_iff.mpr humem, Option.isSome_iff_ne_none.mpr hufail⟩
      cases hh : (order.filter
          (fun u => (InstanceGroup.stopAndDelete svc u).1.isSome)).head? with
      | none =>
        rw [List.head?_eq_none_iff] at hh
        rw [hh] at hmem
        exact absurd hmem (List.not_mem_nil u)
      | some v =>
        have hvmem : v ∈ order.filter
            (fun u => (InstanceGroup.stopAndDelete svc u).1.isSome) :=
          List.mem_of_mem_head? (by simp [hh])
        rw [List.mem_filter] at hvmem
        simpa using Option.isSome_iff_ne_none.mp hvmem.2

/-- Concrete removal oracle for the C2 witness: the wait step fails for
"uuid-bad" and every other id removes cleanly. -/
def svcWaitFailsBad : RemovalSvc :=
  { stopServer := fun _ => none,
    waitForServerState := fun u => if u = "uuid-bad" then some "timeout" else none,
    deleteServerAndStorages := fun _ => none }

/-- Witness for C2 at a concrete two-element instance list with the
reversed completion order. -/
theorem Decrease_spec_witness :
    (InstanceGroup.decreaseRuns svcWaitFailsBad ["uuid-bad", "uuid-ok"]).1.Perm
      (["uuid-ok", "uuid-bad"].filter
        (fun u => (InstanceGroup.stopAndDelete svcWaitFailsBad u).1.isNone)) ∧
    ((InstanceGroup.decreaseRuns svcWaitFailsBad ["uuid-bad", "uuid-ok"]).2.1 ≠ none ↔
      ∃ u ∈ ["uuid-ok", "uuid-bad"],
        (InstanceGroup.stopAndDelete svcWaitFailsBad u).1 ≠ none) ∧
    ((InstanceGroup.decreaseRuns svcWaitFailsBad ["uuid-bad", "uuid-ok"]).2.1 =
      (["uuid-bad", "uuid-ok"].filter
        (fun u => (InstanceGroup.stopAndDelete svcWaitFailsBad u).1.isSome)).head?.bind
        (fun u => (InstanceGroup.stopAndDelete svcWaitFailsBad u).1)) ∧
    InstanceGroup.decreaseRuns svcWaitFailsBad [] = ([], none, []) :=
  Decrease_spec svcWaitFailsBad ["uuid-ok", "uuid-bad"] ["uuid-bad", "uuid-ok"]
    (by decide)

/-- C4: when the label-filtered listing succeeds, Update invokes the
observer callback exactly once per listed server, in listing order, with
the server's id and mapped state, and returns nil (also for an empty
list); when the listing errors, Update returns the wrapped error and the
callback is invoked zero times. -/
theorem Update_spec (g : InstanceGroup)
    (getServers : GetServersWithFiltersRequest → Except Err (List Server)) :
    (∀ l, getServers ⟨[(groupLabelKey, g.Name)]⟩ = .ok l →
      g.Update getServers =
        (.ok (), l.map (fun s => (s.UUID, mapServerState s.State)))) ∧
    (getServers ⟨[(groupLabelKey, g.Name)]⟩ = .ok [] →
      g.Update getServers = (.ok (), [])) ∧
    (∀ e, getServers ⟨[(groupLabelKey, g.Name)]⟩ = .error e →
      g.Update getServers = (.error ("listing group servers: " ++ e), [])) := by
  refine ⟨?_, ?_, ?_⟩
  · intro l hl
    simp [InstanceGroup.Update, hl]
  · intro hl
    simp [InstanceGroup.Update, hl]
  · intro e he
    simp [InstanceGroup.Update, he]

/-- Witness for C4 at a concrete two-server listing. -/
theorem Update_spec_witness :
    InstanceGroup.Update { Name := "grp" }
      (fun _ => .ok [{ UUID := "uuid-1", State := "started" },
                     { UUID := "uuid-2", State := "stopped" }]) =
      (.ok (), [("uuid-1", State.Running), ("uuid-2", State.Deleted)]) :=
  (Update_spec { Name := "grp" }
      (fun _ => .ok [{ UUID := "uuid-1", State := "started" },
                     { UUID := "uuid-2", State := "stopped" }])).1
    [{ UUID := "uuid-1", State := "started" },
     { UUID := "uuid-2", State := "stopped" }] rfl

/-- C5: Heartbeat returns success when the details fetch itself fails,
returns a health error naming the instance exactly when the fetch succeeds
with the provider's error state, and returns success for every other
fetched state. -/
theorem Heartbeat_spec (id : String) :
    (∀ e : Err, InstanceGroup.Heartbeat (.error e) id = none) ∧
    (∀ d : ServerDetails, d.State = ServerStateError →
      InstanceGroup.Heartbeat (.ok d) id =
        some ("server " ++ id ++ " is in error state")) ∧
    (∀ d : ServerDetails, d.State ≠ ServerStateError →
      InstanceGroup.Heartbeat (.ok d) id = none) := by
  refine ⟨?_, ?_, ?_⟩
  · intro e
    rfl
  · intro d hd
    simp [InstanceGroup.Heartbeat, hd]
  · intro d hd
    simp [InstanceGroup.Heartbeat, hd]

/-- Witness for C5: a fetched error state yields the health error naming
the instance. -/
theorem Heartbeat_spec_witness :
    InstanceGroup.Heartbeat (.ok { State := "error" }) "uuid-7" =
      some "server uuid-7 is in error state" :=
  (Heartbeat_spec "uuid-7").2.1 { State := "error" } rfl

/-- Specification helper for the ConnectInfo claims: the address of the
last IPv4 entry with the given access kind, scanning left to right with
later entries winning. -/
def lastIPv4Addr (access : String) : List IPAddress → Option String
  | [] => none
  | ip :: rest =>
    let r := lastIPv4Addr access rest
    if ip.Family = IPAddressFamilyIPv4 ∧ ip.Access = access then
      some (r.getD ip.Address)
    else r

/-- The extraction loop leaves the external and internal address fields at
the last public / private IPv4 address respectively, keeping the incoming
value when no such address exists. -/
theorem applyIPAddresses_addrs (ips : List IPAddress) :
    ∀ info : ConnectInfo,
      (InstanceGroup.applyIPAddresses info ips).ExternalAddr =
        (lastIPv4Addr IPAddressAccessPublic ips).getD info.ExternalAddr ∧
      (InstanceGroup.applyIPAddresses info ips).InternalAddr =
        (lastIPv4Addr IPAddressAccessPrivate ips).getD info.InternalAddr := by
  have hne : ¬(IPAddressAccessPublic = IPAddressAccessPrivate) := by decide
  have hne2 : ¬(IPAddressAccessPrivate = IPAddressAccessPublic) := by decide
  induction ips with
  | nil =>
    intro info
    simp [InstanceGroup.applyIPAddresses, lastIPv4Addr]
  | cons ip rest ih =>
    intro info
    by_cases hf : ip.Family = IPAddressFamilyIPv4
    · by_cases hpub : ip.Access = IPAddressAccessPublic
      · have h := ih { info with ExternalAddr := ip.Address }
        simp [InstanceGroup.applyIPAddresses, lastIPv4Addr, hf, hpub, hne,
          hne2, h.1, h.2]
      · by_cases hpriv : ip.Access = IPAddressAccessPrivate
        · have h := ih { info with InternalAddr := ip.Address }
          simp [InstanceGroup.applyIPAddresses, lastIPv4Addr, hf, hpub,
            hpriv, hne, hne2, h.1, h.2]
        · have h := ih info
          simp [InstanceGroup.applyIPAddresses, lastIPv4Addr, hf, hpub,
            hpriv, h.1, h.2]
    · have h := ih info
      simp [InstanceGroup.applyIPAddresses, lastIPv4Addr, hf, h.1, h.2]

/-- The extraction loop never touches the fields other than the two
address fields. -/
theorem applyIPAddresses_fields (ips : List IPAddress) :
    ∀ info : ConnectInfo,
      (InstanceGroup.applyIPAddresses info ips).OS = info.OS ∧
      (InstanceGroup.applyIPAddresses info ips).Arch = info.Arch ∧
      (InstanceGroup.applyIPAddresses info ips).Protocol = info.Protocol ∧
      (InstanceGroup.applyIPAddresses info ips).Username = info.Username ∧
      (InstanceGroup.applyIPAddresses info ips).ID = info.ID := by
  induction ips with
  | nil =>
    intro info
    simp [InstanceGroup.applyIPAddresses]
  | cons ip rest ih =>
    intro info
    simp only [InstanceGroup.applyIPAddresses]
    split_ifs <;> exact ih _

/-- The info seeded by `connectDefaults` always has empty external and
internal address fields (the connector config carries no addresses). -/
theorem connectDefaults_addr (g : InstanceGroup) (id : String) :
    (g.connectDefaults id).ExternalAddr = "" ∧
    (g.connectDefaults id).InternalAddr = "" := by
  simp only [InstanceGroup.connectDefaults]
  split_ifs <;> exact ⟨rfl, rfl⟩

/-- C8: on a successful details fetch, ConnectInfo sets the internal
address to the last private IPv4 address and the external address to the
last public IPv4 address, in iteration order with the last of each access
kind winning; and when usePrivateNetwork is set and a private IPv4 address
was found, the returned external address equals that private address. -/
theorem ConnectInfo_address_spec (g : InstanceGroup) (d : ServerDetails)
    (id : String) :
    (g.ConnectInfo (.ok d) id).isOk = true ∧
    ∀ info, g.ConnectInfo (.ok d) id = .ok info →
      info.InternalAddr =
        (lastIPv4Addr IPAddressAccessPrivate d.IPAddresses).getD "" ∧
      info.ExternalAddr =
        (if g.UsePrivateNetwork ∧
            (lastIPv4Addr IPAddressAccessPrivate d.IPAddresses).getD "" ≠ "" then
          (lastIPv4Addr IPAddressAccessPrivate d.IPAddresses).getD ""
        else (lastIPv4Addr IPAddressAccessPublic d.IPAddresses).getD "") ∧
      (g.UsePrivateNetwork = true →
        (lastIPv4Addr IPAddressAccessPrivate d.IPAddresses).getD "" ≠ "" →
        info.ExternalAddr =
          (lastIPv4Addr IPAddressAccessPrivate d.IPAddresses).getD "") := by
  constructor
  · rfl
  · intro info h
    unfold InstanceGroup.ConnectInfo at h
    simp only [] at h
    injection h with h
    subst h
    have hbase := connectDefaults_addr g id
    have haddr := applyIPAddresses_addrs d.IPAddresses (g.connectDefaults id)
    rw [hbase.1, hbase.2] at haddr
    by_cases hc : g.UsePrivateNetwork = true ∧
        (InstanceGroup.applyIPAddresses (g.connectDefaults id)
          d.IPAddresses).InternalAddr ≠ ""
    · rw [if_pos hc]
      have hcond : g.UsePrivateNetwork = true ∧
          (lastIPv4Addr IPAddressAccessPrivate d.IPAddresses).getD "" ≠ "" :=
        ⟨hc.1, haddr.2 ▸ hc.2⟩
      refine ⟨haddr.2, ?_, fun _ _ => haddr.2⟩
      rw [if_pos hcond]
      exact haddr.2
    · rw [if_neg hc]
      have hcond : ¬(g.UsePrivateNetwork = true ∧
          (lastIPv4Addr IPAddressAccessPrivate d.IPAddresses).getD "" ≠ "") := by
        intro hcc
        exact hc ⟨hcc.1, haddr.2 ▸ hcc.2⟩
      refine ⟨haddr.2, ?_, ?_⟩
      · rw [if_neg hcond]
        exact haddr.1
      · intro hp hi
        exact absurd ⟨hp, hi⟩ hcond

/-- Concrete server details for the C8 witness: one public IPv4 address,
one public IPv6 address and two private IPv4 addresses. -/
def dMixedAddrs : ServerDetails :=
  { IPAddresses := [
      { Family := "IPv4", Access := "public", Address := "1.2.3.4" },
      { Family := "IPv6", Access := "public", Address := "fe80::1" },
      { Family := "IPv4", Access := "private", Address := "10.0.0.5" },
      { Family := "IPv4", Access := "private", Address := "10.0.0.6" }] }

/-- Witness for C8: with usePrivateNetwork set, the last private IPv4
address wins for both address fields. -/
theorem ConnectInfo_address_spec_witness :
    ({ OS := "linux", Arch := "amd64", Protocol := "ssh", Username := "",
       ID := "uuid-9", ExternalAddr := "10.0.0.6",
       InternalAddr := "10.0.0.6" } : ConnectInfo).InternalAddr =
      (lastIPv4Addr IPAddressAccessPrivate dMixedAddrs.IPAddresses).getD "" ∧
    ({ OS := "linux", Arch := "amd64", Protocol := "ssh", Username := "",
       ID := "uuid-9", ExternalAddr := "10.0.0.6",
       InternalAddr := "10.0.0.6" } : ConnectInfo).ExternalAddr =
      (if ({ UsePrivateNetwork := true } : InstanceGroup).UsePrivateNetwork ∧
          (lastIPv4Addr IPAddressAccessPrivate dMixedAddrs.IPAddresses).getD ""
            ≠ "" then
        (lastIPv4Addr IPAddressAccessPrivate dMixedAddrs.IPAddresses).getD ""
      else
        (lastIPv4Addr IPAddressAccessPublic dMixedAddrs.IPAddresses).getD "") ∧
    (({ UsePrivateNetwork := true } : InstanceGroup).UsePrivateNetwork = true →
      (lastIPv4Addr IPAddressAccessPrivate dMixedAddrs.IPAddresses).getD ""
        ≠ "" →
      ({ OS := "linux", Arch := "amd64", Protocol := "ssh", Username := "",
         ID := "uuid-9", ExternalAddr := "10.0.0.6",
         InternalAddr := "10.0.0.6" } : ConnectInfo).ExternalAddr =
        (lastIPv4Addr IPAddressAccessPrivate dMixedAddrs.IPAddresses).getD "") :=
  (ConnectInfo_address_spec { UsePrivateNetwork := true } dMixedAddrs
      "uuid-9").2
    { OS := "linux", Arch := "amd64", Protocol := "ssh", Username := "",
      ID := "uuid-9", ExternalAddr := "10.0.0.6", InternalAddr := "10.0.0.6" }
    rfl

/-- When no entry of the list is IPv4, no entry is retained by the
last-of-kind scan. -/
theorem lastIPv4Addr_eq_none (access : String) (ips : List IPAddress)
    (h : ∀ ip ∈ ips, ip.Family ≠ IPAddressFamilyIPv4) :
    lastIPv4Addr access ips = none := by
  induction ips with
  | nil => rfl
  | cons ip rest ih =>
    have hip := h ip (List.mem_cons_self ip rest)
    have hrest := ih (fun x hx => h x (List.mem_cons_of_mem ip hx))
    simp [lastIPv4Addr, hip, hrest]

/-- Dropping the non-IPv4 entries of the address list does not change the
result of the extraction loop. -/
theorem applyIPAddresses_filter (ips : List IPAddress) :
    ∀ info : ConnectInfo,
      InstanceGroup.applyIPAddresses info
        (ips.filter (fun ip => ip.Family == IPAddressFamilyIPv4)) =
      InstanceGroup.applyIPAddresses info ips := by
  induction ips with
  | nil => intro info; rfl
  | cons ip rest ih =>
    intro info
    by_cases hf : ip.Family = IPAddressFamilyIPv4
    · simp [List.filter_cons, hf, InstanceGroup.applyIPAddresses, ih]
    · simp [List.filter_cons, hf, InstanceGroup.applyIPAddresses, ih]

/-- C10: when the fetched details contain no IPv4 address, ConnectInfo
succeeds with both address fields empty; and addresses of other families
never influence the returned connection info (filtering the list down to
its IPv4 entries yields the same result). -/
theorem ConnectInfo_ipv4_only_spec (g : InstanceGroup) (d : ServerDetails)
    (id : String) :
    ((∀ ip ∈ d.IPAddresses, ip.Family ≠ IPAddressFamilyIPv4) →
      ∀ info, g.ConnectInfo (.ok d) id = .ok info →
        info.ExternalAddr = "" ∧ info.InternalAddr = "") ∧
    g.ConnectInfo
        (.ok { d with IPAddresses :=
          d.IPAddresses.filter (fun ip => ip.Family == IPAddressFamilyIPv4) })
        id =
      g.ConnectInfo (.ok d) id := by
  constructor
  · intro hnone info h
    unfold InstanceGroup.ConnectInfo at h
    simp only [] at h
    injection h with h
    subst h
    have hbase := connectDefaults_addr g id
    have haddr := applyIPAddresses_addrs d.IPAddresses (g.connectDefaults id)
    rw [hbase.1, hbase.2] at haddr
    rw [lastIPv4Addr_eq_none IPAddressAccessPublic d.IPAddresses hnone] at haddr
    rw [lastIPv4Addr_eq_none IPAddressAccessPrivate d.IPAddresses hnone] at haddr
    simp only [Option.getD_none] at haddr
    have hc : ¬(g.UsePrivateNetwork = true ∧
        (InstanceGroup.applyIPAddresses (g.connectDefaults id)
          d.IPAddresses).InternalAddr ≠ "") := by
      intro hcc
      exact hcc.2 haddr.2
    rw [if_neg hc]
    exact ⟨haddr.1, haddr.2⟩
  · unfold InstanceGroup.ConnectInfo
    simp only []
    rw [applyIPAddresses_filter]

/-- Concrete server details for the C10 witness: a single IPv6 address and
no IPv4 entry. -/
def dOnlyIPv6 : ServerDetails :=
  { IPAddresses :=
      [{ Family := "IPv6", Access := "public", Address := "fe80::2" }] }

/-- Witness for C10: with only an IPv6 address, both returned address
fields are empty. -/
theorem ConnectInfo_ipv4_only_spec_witness :
    ({ OS := "linux", Arch := "amd64", Protocol := "ssh", Username := "",
       ID := "uuid-10", ExternalAddr := "", InternalAddr := "" } :
        ConnectInfo).ExternalAddr = "" ∧
    ({ OS := "linux", Arch := "amd64", Protocol := "ssh", Username := "",
       ID := "uuid-10", ExternalAddr := "", InternalAddr := "" } :
        ConnectInfo).InternalAddr = "" :=
  (ConnectInfo_ipv4_only_spec {} dOnlyIPv6 "uuid-10").1
    (by decide)
    { OS := "linux", Arch := "amd64", Protocol := "ssh", Username := "",
      ID := "uuid-10", ExternalAddr := "", InternalAddr := "" }
    rfl

end FleetingUpcloud
